import Mathlib

/-!
Verification of `src/apscheduler/adapters.py` (`AsyncDataStoreAdapter`).

The adapter wraps a blocking `DataStore` behind an async facade:
plain operations are offloaded to a worker thread via
`anyio.to_thread.run_sync`, the scoped operation `acquire_schedules`
drives the blocking context manager's enter/exit phases on worker
threads, and `subscribe` wraps the user callback through a
`BlockingPortal` so that it runs on the event-loop thread.

The embedding is trace-based: each adapter method is a Lean function
from oracles (the behaviour of the blocking store, of the context
manager returned by `original.acquire_schedules`, and of the portal)
to the sequence of calls the method issues plus its final outcome
(`Except Exc`).  Exceptions are modelled as opaque triples
(type, value, traceback); the `(exc_type, exc_val, exc_tb)` argument
tuple of an `__exit__` call is `Option Exc` (`none` is
`(None, None, None)`).  `anyio.to_thread.run_sync` is modelled per its
contract: it runs the function with the given arguments on a worker
thread and returns its value or re-raises its exception verbatim.
-/

namespace Apscheduler

/-- An opaque Python exception, carrying the `(type, value, traceback)`
triple that `sys.exc_info()` reports for it. -/
structure Exc where
  ty : Nat
  val : Nat
  tb : Nat
deriving Repr, DecidableEq

/-- The `(exc_type, exc_val, exc_tb)` argument tuple of an `__exit__` /
`__aexit__` call: `none` is `(None, None, None)`. -/
abbrev ExcInfo := Option Exc

/-- One observable call issued by an adapter method, in program order.
`offload…` events are calls routed through `anyio.to_thread.run_sync`;
`sync…` events are direct synchronous calls on the calling thread;
`portal…` events are lifecycle calls on the adapter's `BlockingPortal`. -/
inductive Ev where
  | portalCreate
  | portalAenter
  | portalAexit (info : ExcInfo)
  | offloadOriginalEnter
  | offloadOriginalExit (info : ExcInfo)
  | syncAcquireSchedules (scheduler_id : Nat) (limit : Nat)
  | offloadCmEnter
  | offloadCmExit (info : ExcInfo)
  | syncSubscribe
  | syncUnsubscribe (token : Nat)
deriving Repr, DecidableEq

/-- Whether an event is a call offloaded to a worker thread via
`to_thread.run_sync`. -/
def Ev.isOffload : Ev → Bool
  | .offloadOriginalEnter => true
  | .offloadOriginalExit _ => true
  | .offloadCmEnter => true
  | .offloadCmExit _ => true
  | _ => false

/-- Whether an event is an offloaded `cm.__exit__` call. -/
def Ev.isCmExit : Ev → Bool
  | .offloadCmExit _ => true
  | _ => false

/-- Number of offloaded `cm.__exit__` calls in a trace. -/
def countCmExit (tr : List Ev) : Nat :=
  tr.countP Ev.isCmExit

/-- Behaviour of the sub-calls made by `__aenter__` / `__aexit__`:
the portal's own lifecycle methods and the blocking store's
`__enter__` / `__exit__` (run on a worker thread).  Each entry is the
result of the corresponding call: `ok` for normal return, `error e`
when the call raises `e`. -/
structure LifecycleOracle where
  portalAenter : Except Exc Unit
  originalEnter : Except Exc Unit
  originalExit : ExcInfo → Except Exc Unit
  portalAexit : ExcInfo → Except Exc Unit

/-- Result of running `__aenter__`: the calls issued, whether the
portal ended up open, and the outcome (`ok` means `return self`,
i.e. the facade reached the Open state). -/
structure AenterRun where
  trace : List Ev
  portalOpen : Bool
  outcome : Except Exc Unit

/-- Result of running `__aexit__` or the scoped/plain methods that
return nothing: the calls issued and the outcome. -/
structure AexitRun where
  trace : List Ev
  outcome : Except Exc Unit

/-- `AsyncDataStoreAdapter.__aenter__`:
`self._portal = BlockingPortal()`; `await self._portal.__aenter__()`;
`await to_thread.run_sync(self.original.__enter__)`; `return self`.
There is no error handling: the first raising call aborts the method
and its exception propagates; the portal is open from the moment its
`__aenter__` returned. -/
def AsyncDataStoreAdapter.aenter (o : LifecycleOracle) : AenterRun :=
  match o.portalAenter with
  | .error e => ⟨[.portalCreate, .portalAenter], false, .error e⟩
  | .ok _ =>
    ⟨[.portalCreate, .portalAenter, .offloadOriginalEnter], true,
     match o.originalEnter with
     | .error e => .error e
     | .ok _ => .ok ()⟩

/-- `AsyncDataStoreAdapter.__aexit__(exc_type, exc_val, exc_tb)`:
`await to_thread.run_sync(self.original.__exit__, exc_type, exc_val, exc_tb)`;
`await self._portal.__aexit__(exc_type, exc_val, exc_tb)`.
The two awaits are sequential with no `try`/`finally`: if the offloaded
`original.__exit__` raises, the portal's `__aexit__` is never reached. -/
def AsyncDataStoreAdapter.aexit (o : LifecycleOracle) (info : ExcInfo) : AexitRun :=
  match o.originalExit info with
  | .error e => ⟨[.offloadOriginalExit info], .error e⟩
  | .ok _ =>
    ⟨[.offloadOriginalExit info, .portalAexit info],
     match o.portalAexit info with
     | .error e => .error e
     | .ok _ => .ok ()⟩

/-- Behaviour of the sub-calls made by `acquire_schedules`:
`construct` is the synchronous `original.acquire_schedules(scheduler_id,
limit)` call producing the blocking context manager `cm`; `enter` is the
offloaded `cm.__enter__()` returning the schedule list; `exit` is the
offloaded `cm.__exit__(exc_type, exc_val, exc_tb)` returning its
truthiness (the suppression signal) or raising. -/
structure CmOracle where
  construct : Nat → Nat → Except Exc Unit
  enter : Except Exc (List Nat)
  exit : ExcInfo → Except Exc Bool

/-- `AsyncDataStoreAdapter.acquire_schedules(scheduler_id, limit)`, an
`@asynccontextmanager`, run against a consumer scope `body`:

`cm = self.original.acquire_schedules(scheduler_id, limit)` (synchronous);
`schedules = await to_thread.run_sync(cm.__enter__)`;
`try: yield schedules`
`except BaseException: if not await to_thread.run_sync(cm.__exit__, *sys.exc_info()): raise`
`else: await to_thread.run_sync(cm.__exit__, None, None, None)`.

`body schedules` is the consumer's use of the yielded value: `ok` when
the scope body completes normally, `error E` when it raises `E`. -/
def AsyncDataStoreAdapter.acquire_schedules (o : CmOracle) (scheduler_id limit : Nat)
    (body : List Nat → Except Exc Unit) : AexitRun :=
  match o.construct scheduler_id limit with
  | .error e => ⟨[.syncAcquireSchedules scheduler_id limit], .error e⟩
  | .ok _ =>
    match o.enter with
    | .error e =>
      ⟨[.syncAcquireSchedules scheduler_id limit, .offloadCmEnter], .error e⟩
    | .ok schedules =>
      match body schedules with
      | .ok _ =>
        ⟨[.syncAcquireSchedules scheduler_id limit, .offloadCmEnter, .offloadCmExit none],
         match o.exit none with
         | .error e => .error e
         | .ok _ => .ok ()⟩
      | .error E =>
        ⟨[.syncAcquireSchedules scheduler_id limit, .offloadCmEnter,
            .offloadCmExit (some E)],
         match o.exit (some E) with
         | .error e2 => .error e2
         | .ok suppressed => if suppressed then .ok () else .error E⟩

/-- Modelled from the spec: `anyio.to_thread.run_sync(fn, arg)` (the
WorkerOffloader, an external collaborator) runs `fn(arg)` on a worker
thread and returns its value, or re-raises `fn`'s exception in the
caller's context verbatim — no wrapping, no loss of error identity. -/
def run_sync {α β : Type} (f : α → Except Exc β) (a : α) : Except Exc β :=
  f a

/-- Modelled from the spec: `to_thread.run_sync(fn, a, b)` with two
arguments. -/
def run_sync2 {α β γ : Type} (f : α → β → Except Exc γ) (a : α) (b : β) : Except Exc γ :=
  f a b

/-- Modelled from the spec: `to_thread.run_sync(fn, a, b, c)` with three
arguments. -/
def run_sync3 {α β γ δ : Type} (f : α → β → γ → Except Exc δ) (a : α) (b : β) (c : γ) :
    Except Exc δ :=
  f a b c

/-- The blocking `DataStore`: one function per plain blocking operation,
each returning its value or raising.  Domain payloads (schedules, jobs,
policies, results, ids) are opaque values, encoded as naturals. -/
structure DataStore where
  get_schedules : Option (List Nat) → Except Exc (List Nat)
  add_schedule : Nat → Nat → Except Exc Unit
  remove_schedules : List Nat → Except Exc Unit
  add_job : Nat → Except Exc Unit
  get_jobs : Option (List Nat) → Except Exc (List Nat)
  acquire_jobs : Nat → Option Nat → Except Exc (List Nat)
  release_job : Nat → Nat → Option Nat → Except Exc Unit
  get_job_result : Nat → Except Exc (Option Nat)

/-- `async def get_schedules(self, ids)`:
`return await to_thread.run_sync(self.original.get_schedules, ids)`. -/
def AsyncDataStoreAdapter.get_schedules (original : DataStore) (ids : Option (List Nat)) :
    Except Exc (List Nat) :=
  run_sync original.get_schedules ids

/-- `async def add_schedule(self, schedule, conflict_policy)`:
`await to_thread.run_sync(self.original.add_schedule, schedule, conflict_policy)`. -/
def AsyncDataStoreAdapter.add_schedule (original : DataStore) (schedule conflict_policy : Nat) :
    Except Exc Unit :=
  run_sync2 original.add_schedule schedule conflict_policy

/-- `async def remove_schedules(self, ids)`:
`await to_thread.run_sync(self.original.remove_schedules, ids)`. -/
def AsyncDataStoreAdapter.remove_schedules (original : DataStore) (ids : List Nat) :
    Except Exc Unit :=
  run_sync original.remove_schedules ids

/-- `async def add_job(self, job)`:
`await to_thread.run_sync(self.original.add_job, job)`. -/
def AsyncDataStoreAdapter.add_job (original : DataStore) (job : Nat) : Except Exc Unit :=
  run_sync original.add_job job

/-- `async def get_jobs(self, ids)`:
`return await to_thread.run_sync(self.original.get_jobs, ids)`. -/
def AsyncDataStoreAdapter.get_jobs (original : DataStore) (ids : Option (List Nat)) :
    Except Exc (List Nat) :=
  run_sync original.get_jobs ids

/-- `async def acquire_jobs(self, worker_id, limit)`:
`return await to_thread.run_sync(self.original.acquire_jobs, worker_id, limit)`. -/
def AsyncDataStoreAdapter.acquire_jobs (original : DataStore) (worker_id : Nat)
    (limit : Option Nat) : Except Exc (List Nat) :=
  run_sync2 original.acquire_jobs worker_id limit

/-- `async def release_job(self, worker_id, job_id, result)`:
`await to_thread.run_sync(self.original.release_job, worker_id, job_id, result)`. -/
def AsyncDataStoreAdapter.release_job (original : DataStore) (worker_id job_id : Nat)
    (result : Option Nat) : Except Exc Unit :=
  run_sync3 original.release_job worker_id job_id result

/-- `async def get_job_result(self, job_id)`:
`return await to_thread.run_sync(self.original.get_job_result, job_id)`. -/
def AsyncDataStoreAdapter.get_job_result (original : DataStore) (job_id : Nat) :
    Except Exc (Option Nat) :=
  run_sync original.get_job_result job_id

/-- An event delivered to a subscribed callback (opaque payload). -/
abbrev Event := Nat

/-- An opaque subscription token returned by the blocking store. -/
abbrev Token := Nat

/-- The `BlockingPortal`'s visible state for `portal.call`. -/
structure Portal where
  isOpen : Bool

/-- Outcome of a `portal.call(fn, event)` relay: either the callback ran
(recording whether it ran on the loop thread, and its result), or the
portal rejected the call because it was not open. -/
inductive PortalOutcome where
  | ran (onLoopThread : Bool) (result : Except Exc Unit)
  | lifecycleFailure
deriving Repr

/-- Modelled from the spec: `BlockingPortal.call(fn, event)` (the
CallbackPortal, an external collaborator) submits `fn(event)` to run on
the event-loop thread, blocks the calling thread until it completes, and
returns its result or re-raises its error; calling it on a portal that
is not open is a lifecycle error. -/
def Portal.call (p : Portal) (fn : Event → Except Exc Unit) (event : Event) : PortalOutcome :=
  if p.isOpen then .ran true (fn event) else .lifecycleFailure

/-- The wrapper the adapter registers in place of the user callback:
the pre-applied `self._portal.call` with `callback` as first argument,
so that invoking it on `event` performs `portal.call(callback, event)`. -/
def wrapped_callback (p : Portal) (callback : Event → Except Exc Unit) :
    Event → PortalOutcome :=
  fun event => p.call callback event

/-- Result of running `subscribe`: the calls issued and the token
returned to the caller. -/
structure SubscribeRun where
  trace : List Ev
  token : Token

/-- `def subscribe(self, callback, event_types)` (not `async`):
`return self.original.subscribe(partial-application of self._portal.call
to callback, event_types)` — a direct synchronous call on the store, not
offloaded.  `original_subscribe` is the store's registration operation:
it receives the function being registered and the type filter and
returns a token. -/
def AsyncDataStoreAdapter.subscribe
    (original_subscribe : (Event → PortalOutcome) → Option (List Nat) → Token)
    (p : Portal) (callback : Event → Except Exc Unit) (event_types : Option (List Nat)) :
    SubscribeRun :=
  ⟨[.syncSubscribe], original_subscribe (wrapped_callback p callback) event_types⟩

/-- `def unsubscribe(self, token)` (not `async`):
`self.original.unsubscribe(token)` — a direct synchronous call. -/
def AsyncDataStoreAdapter.unsubscribe (original_unsubscribe : Token → Except Exc Unit)
    (token : Token) : AexitRun :=
  ⟨[.syncUnsubscribe token], original_unsubscribe token⟩

/-- A sample exception. -/
def e0 : Exc := ⟨1, 2, 3⟩

/-- Lifecycle behaviour in which every sub-call succeeds. -/
def oLifeOk : LifecycleOracle :=
  ⟨.ok (), .ok (), fun _ => .ok (), fun _ => .ok ()⟩

/-- Lifecycle behaviour in which the offloaded `original.__exit__`
raises `e0` and everything else succeeds. -/
def oLifeExitRaises : LifecycleOracle :=
  ⟨.ok (), .ok (), fun _ => .error e0, fun _ => .ok ()⟩

/-- Lifecycle behaviour in which the portal's `__aenter__` raises `e0`. -/
def oLifePortalFails : LifecycleOracle :=
  ⟨.error e0, .ok (), fun _ => .ok (), fun _ => .ok ()⟩

/-- Lifecycle behaviour in which the offloaded `original.__enter__`
raises `e0` after the portal opened. -/
def oLifeEnterRaises : LifecycleOracle :=
  ⟨.ok (), .error e0, fun _ => .ok (), fun _ => .ok ()⟩

/-- Context-manager behaviour: everything succeeds, `cm.__enter__`
yields `[7]`, `cm.__exit__` returns falsy (no suppression). -/
def oCmOk : CmOracle :=
  ⟨fun _ _ => .ok (), .ok [7], fun _ => .ok false⟩

/-- Context-manager behaviour: like `oCmOk` but `cm.__exit__` returns
truthy (suppresses the in-scope error). -/
def oCmSuppress : CmOracle :=
  ⟨fun _ _ => .ok (), .ok [7], fun _ => .ok true⟩

/-- Context-manager behaviour: the offloaded `cm.__enter__` raises `e0`. -/
def oCmEnterRaises : CmOracle :=
  ⟨fun _ _ => .ok (), .error e0, fun _ => .ok false⟩

/-- Context-manager behaviour: the synchronous
`original.acquire_schedules(...)` constructor call itself raises `e0`. -/
def oCmConstructRaises : CmOracle :=
  ⟨fun _ _ => .error e0, .ok [], fun _ => .ok false⟩

/-- A scope body that completes normally. -/
def bodyOk : List Nat → Except Exc Unit := fun _ => .ok ()

/-- A scope body that raises `e0`. -/
def bodyRaises : List Nat → Except Exc Unit := fun _ => .error e0

/-- A store registration operation returning token 42. -/
def subOracle : (Event → PortalOutcome) → Option (List Nat) → Token :=
  fun _ _ => 42

/-- A store unregistration operation that succeeds. -/
def unsubOracle : Token → Except Exc Unit := fun _ => .ok ()

/-- An open portal. -/
def pLive : Portal := ⟨true⟩

/-- A user callback that succeeds. -/
def cb0 : Event → Except Exc Unit := fun _ => .ok ()

/-- C1 counterexample: with a blocking component whose `__exit__` raises
`e0`, the adapter's `__aexit__` propagates `e0` without ever calling the
portal's `__aexit__`: the claimed unconditional portal close does not
happen, because the two awaits are sequential with no `try`/`finally`. -/
theorem aexit_close_unconditional_cex :
    (AsyncDataStoreAdapter.aexit oLifeExitRaises none).outcome = .error e0 ∧
    Ev.portalAexit none ∉ (AsyncDataStoreAdapter.aexit oLifeExitRaises none).trace :=
  ⟨rfl, by decide⟩

/-- C1 (amended): on the Open→Closed transition the blocking component's
exit phase is offloaded first, and the portal's `__aexit__` runs exactly
when that offloaded exit phase returns normally.  If `original.__exit__`
raises `e`, the method's trace is the single offloaded exit call — the
portal's close never runs — and `e` propagates to the caller. -/
theorem aexit_close_runs_iff_exit_ok (o : LifecycleOracle) (info : ExcInfo) :
    (Ev.portalAexit info ∈ (AsyncDataStoreAdapter.aexit o info).trace ↔
       o.originalExit info = .ok ()) ∧
    (∀ e, o.originalExit info = .error e →
       (AsyncDataStoreAdapter.aexit o info).trace = [.offloadOriginalExit info] ∧
       (AsyncDataStoreAdapter.aexit o info).outcome = .error e) := by
  cases h : o.originalExit info with
  | error e =>
      constructor
      · simp [AsyncDataStoreAdapter.aexit, h]
      · intro e2 h2
        simp at h2
        subst h2
        simp [AsyncDataStoreAdapter.aexit, h]
  | ok u =>
      cases u
      constructor
      · simp [AsyncDataStoreAdapter.aexit, h]
      · intro e2 h2
        simp at h2

/-- C1 witness: with every sub-call succeeding the portal close does run,
and with `original.__exit__` raising `e0` the error propagates. -/
theorem aexit_close_runs_iff_exit_ok_witness :
    Ev.portalAexit none ∈ (AsyncDataStoreAdapter.aexit oLifeOk none).trace ∧
    (AsyncDataStoreAdapter.aexit oLifeExitRaises none).outcome = .error e0 :=
  ⟨(aexit_close_runs_iff_exit_ok oLifeOk none).1.mpr rfl,
   ((aexit_close_runs_iff_exit_ok oLifeExitRaises none).2 e0 rfl).2⟩

/-- C2: once `cm.__enter__` has succeeded in `acquire_schedules`,
`cm.__exit__` is invoked exactly once on scope exit — with
`(None, None, None)` when the scope body completes normally, and with the
raised error's `(type, value, traceback)` when the body raises — never
zero times and never twice, regardless of outcome. -/
theorem acquire_schedules_release_exactly_once (o : CmOracle) (sid lim : Nat)
    (body : List Nat → Except Exc Unit) (schedules : List Nat)
    (hc : o.construct sid lim = .ok ()) (he : o.enter = .ok schedules) :
    countCmExit (AsyncDataStoreAdapter.acquire_schedules o sid lim body).trace = 1 ∧
    (body schedules = .ok () →
       Ev.offloadCmExit none ∈
         (AsyncDataStoreAdapter.acquire_schedules o sid lim body).trace) ∧
    (∀ E, body schedules = .error E →
       Ev.offloadCmExit (some E) ∈
         (AsyncDataStoreAdapter.acquire_schedules o sid lim body).trace) := by
  cases hb : body schedules with
  | ok u =>
      cases u
      refine ⟨?_, ?_, ?_⟩
      · simp [AsyncDataStoreAdapter.acquire_schedules, hc, he, hb, countCmExit,
          List.countP_cons, List.countP_nil, Ev.isCmExit]
      · intro _
        simp [AsyncDataStoreAdapter.acquire_schedules, hc, he, hb]
      · intro E hE
        simp at hE
  | error E =>
      refine ⟨?_, ?_, ?_⟩
      · simp [AsyncDataStoreAdapter.acquire_schedules, hc, he, hb, countCmExit,
          List.countP_cons, List.countP_nil, Ev.isCmExit]
      · intro hok
        simp at hok
      · intro E2 hE2
        simp at hE2
        subst hE2
        simp [AsyncDataStoreAdapter.acquire_schedules, hc, he, hb]

/-- C2 witness: with a succeeding context manager, a normal body releases
once with no-error context, and a raising body releases once with the
error's context. -/
theorem acquire_schedules_release_exactly_once_witness :
    countCmExit (AsyncDataStoreAdapter.acquire_schedules oCmOk 5 1 bodyOk).trace = 1 ∧
    Ev.offloadCmExit none ∈ (AsyncDataStoreAdapter.acquire_schedules oCmOk 5 1 bodyOk).trace ∧
    Ev.offloadCmExit (some e0) ∈
      (AsyncDataStoreAdapter.acquire_schedules oCmOk 5 1 bodyRaises).trace :=
  ⟨(acquire_schedules_release_exactly_once oCmOk 5 1 bodyOk [7] rfl rfl).1,
   (acquire_schedules_release_exactly_once oCmOk 5 1 bodyOk [7] rfl rfl).2.1 rfl,
   (acquire_schedules_release_exactly_once oCmOk 5 1 bodyRaises [7] rfl rfl).2.2 e0 rfl⟩

/-- C3: when the scope body of `acquire_schedules` raises `E`, a truthy
return from the offloaded `cm.__exit__` swallows `E` (the scoped call
returns normally), and a falsy return re-raises `E` unchanged. -/
theorem acquire_schedules_suppression (o : CmOracle) (sid lim : Nat)
    (body : List Nat → Except Exc Unit) (schedules : List Nat) (E : Exc)
    (hc : o.construct sid lim = .ok ()) (he : o.enter = .ok schedules)
    (hb : body schedules = .error E) :
    (o.exit (some E) = .ok true →
       (AsyncDataStoreAdapter.acquire_schedules o sid lim body).outcome = .ok ()) ∧
    (o.exit (some E) = .ok false →
       (AsyncDataStoreAdapter.acquire_schedules o sid lim body).outcome = .error E) := by
  constructor
  · intro hx
    simp [AsyncDataStoreAdapter.acquire_schedules, hc, he, hb, hx]
  · intro hx
    simp [AsyncDataStoreAdapter.acquire_schedules, hc, he, hb, hx]

/-- C3 witness: a suppressing `cm.__exit__` makes the raising scope
return normally; a non-suppressing one re-raises `e0`. -/
theorem acquire_schedules_suppression_witness :
    (AsyncDataStoreAdapter.acquire_schedules oCmSuppress 5 1 bodyRaises).outcome = .ok () ∧
    (AsyncDataStoreAdapter.acquire_schedules oCmOk 5 1 bodyRaises).outcome = .error e0 :=
  ⟨(acquire_schedules_suppression oCmSuppress 5 1 bodyRaises [7] e0 rfl rfl rfl).1 rfl,
   (acquire_schedules_suppression oCmOk 5 1 bodyRaises [7] e0 rfl rfl rfl).2 rfl⟩

/-- C4: when the offloaded `cm.__enter__` in `acquire_schedules` raises,
`cm.__exit__` is never invoked for that attempt and the acquire-phase
error propagates to the caller. -/
theorem acquire_schedules_enter_failure_no_release (o : CmOracle) (sid lim : Nat)
    (body : List Nat → Except Exc Unit) (e : Exc)
    (hc : o.construct sid lim = .ok ()) (he : o.enter = .error e) :
    (AsyncDataStoreAdapter.acquire_schedules o sid lim body).outcome = .error e ∧
    ∀ info, Ev.offloadCmExit info ∉
      (AsyncDataStoreAdapter.acquire_schedules o sid lim body).trace := by
  refine ⟨?_, ?_⟩
  · simp [AsyncDataStoreAdapter.acquire_schedules, hc, he]
  · intro info
    simp [AsyncDataStoreAdapter.acquire_schedules, hc, he]

/-- C4 witness: with `cm.__enter__` raising `e0`, the scoped call
propagates `e0` and issues no `cm.__exit__` call. -/
theorem acquire_schedules_enter_failure_no_release_witness :
    (AsyncDataStoreAdapter.acquire_schedules oCmEnterRaises 5 1 bodyOk).outcome = .error e0 ∧
    Ev.offloadCmExit none ∉
      (AsyncDataStoreAdapter.acquire_schedules oCmEnterRaises 5 1 bodyOk).trace :=
  ⟨(acquire_schedules_enter_failure_no_release oCmEnterRaises 5 1 bodyOk e0 rfl rfl).1,
   (acquire_schedules_enter_failure_no_release oCmEnterRaises 5 1 bodyOk e0 rfl rfl).2 none⟩

/-- C5: each plain facade operation is observationally equal to the
blocking component's operation of the same name — for every store
behaviour and every argument tuple it passes the arguments through
unchanged and produces exactly the component's return value or raises
exactly the component's error. -/
theorem plain_ops_pass_through (st : DataStore) :
    (∀ ids, AsyncDataStoreAdapter.get_schedules st ids = st.get_schedules ids) ∧
    (∀ schedule conflict_policy,
       AsyncDataStoreAdapter.add_schedule st schedule conflict_policy =
         st.add_schedule schedule conflict_policy) ∧
    (∀ ids, AsyncDataStoreAdapter.remove_schedules st ids = st.remove_schedules ids) ∧
    (∀ job, AsyncDataStoreAdapter.add_job st job = st.add_job job) ∧
    (∀ ids, AsyncDataStoreAdapter.get_jobs st ids = st.get_jobs ids) ∧
    (∀ worker_id limit,
       AsyncDataStoreAdapter.acquire_jobs st worker_id limit =
         st.acquire_jobs worker_id limit) ∧
    (∀ worker_id job_id result,
       AsyncDataStoreAdapter.release_job st worker_id job_id result =
         st.release_job worker_id job_id result) ∧
    (∀ job_id, AsyncDataStoreAdapter.get_job_result st job_id = st.get_job_result job_id) :=
  ⟨fun _ => rfl, fun _ _ => rfl, fun _ => rfl, fun _ => rfl, fun _ => rfl,
   fun _ _ => rfl, fun _ _ _ => rfl, fun _ => rfl⟩

/-- C6: the Closed→Open transition opens the portal first and only then
offloads the blocking component's enter phase; if either step raises,
the facade does not reach the Open state and the error propagates. -/
theorem aenter_order_and_open_state (o : LifecycleOracle) :
    ((AsyncDataStoreAdapter.aenter o).trace.take 2 = [Ev.portalCreate, Ev.portalAenter]) ∧
    (Ev.offloadOriginalEnter ∈ (AsyncDataStoreAdapter.aenter o).trace →
       (AsyncDataStoreAdapter.aenter o).trace =
         [Ev.portalCreate, Ev.portalAenter, Ev.offloadOriginalEnter]) ∧
    (∀ e, o.portalAenter = .error e →
       (AsyncDataStoreAdapter.aenter o).outcome = .error e ∧
       Ev.offloadOriginalEnter ∉ (AsyncDataStoreAdapter.aenter o).trace) ∧
    (∀ e, o.portalAenter = .ok () → o.originalEnter = .error e →
       (AsyncDataStoreAdapter.aenter o).outcome = .error e) ∧
    ((AsyncDataStoreAdapter.aenter o).outcome = .ok () ↔
       o.portalAenter = .ok () ∧ o.originalEnter = .ok ()) := by
  cases hp : o.portalAenter with
  | error e =>
      refine ⟨?_, ?_, ?_, ?_, ?_⟩
      · simp [AsyncDataStoreAdapter.aenter, hp]
      · intro hmem
        simp [AsyncDataStoreAdapter.aenter, hp] at hmem
      · intro e2 h2
        simp at h2
        subst h2
        simp [AsyncDataStoreAdapter.aenter, hp]
      · intro e2 h2
        simp at h2
      · simp [AsyncDataStoreAdapter.aenter, hp]
  | ok u =>
      cases u
      cases hq : o.originalEnter with
      | error e =>
          refine ⟨?_, ?_, ?_, ?_, ?_⟩
          · simp [AsyncDataStoreAdapter.aenter, hp]
          · intro _
            simp [AsyncDataStoreAdapter.aenter, hp]
          · intro e2 h2
            simp at h2
          · intro e2 _ h2
            simp at h2
            subst h2
            simp [AsyncDataStoreAdapter.aenter, hp, hq]
          · simp [AsyncDataStoreAdapter.aenter, hp, hq]
      | ok u2 =>
          cases u2
          refine ⟨?_, ?_, ?_, ?_, ?_⟩
          · simp [AsyncDataStoreAdapter.aenter, hp]
          · intro _
            simp [AsyncDataStoreAdapter.aenter, hp]
          · intro e2 h2
            simp at h2
          · intro e2 _ h2
            simp at h2
          · simp [AsyncDataStoreAdapter.aenter, hp, hq]

/-- C6 witness: all-succeeding oracles reach Open with the full ordered
trace; a failing portal open or a failing offloaded enter phase each
propagate `e0`. -/
theorem aenter_order_and_open_state_witness :
    (AsyncDataStoreAdapter.aenter oLifeOk).outcome = .ok () ∧
    (AsyncDataStoreAdapter.aenter oLifeOk).trace =
      [Ev.portalCreate, Ev.portalAenter, Ev.offloadOriginalEnter] ∧
    (AsyncDataStoreAdapter.aenter oLifePortalFails).outcome = .error e0 ∧
    (AsyncDataStoreAdapter.aenter oLifeEnterRaises).outcome = .error e0 :=
  ⟨(aenter_order_and_open_state oLifeOk).2.2.2.2.mpr ⟨rfl, rfl⟩,
   (aenter_order_and_open_state oLifeOk).2.1 (by decide),
   ((aenter_order_and_open_state oLifePortalFails).2.2.1 e0 rfl).1,
   (aenter_order_and_open_state oLifeEnterRaises).2.2.2.1 e0 rfl rfl⟩

/-- C7: `subscribe` forwards the registration synchronously (no offload
event), registers the wrapper that relays each event through
`portal.call` with the original user callback, and returns the
component's token unchanged; `unsubscribe` forwards the token
synchronously and unchanged. -/
theorem subscribe_sync_wraps_callback
    (original_subscribe : (Event → PortalOutcome) → Option (List Nat) → Token)
    (original_unsubscribe : Token → Except Exc Unit)
    (p : Portal) (callback : Event → Except Exc Unit)
    (event_types : Option (List Nat)) (token : Token) :
    ((AsyncDataStoreAdapter.subscribe original_subscribe p callback event_types).trace =
       [Ev.syncSubscribe]) ∧
    (∀ ev ∈ (AsyncDataStoreAdapter.subscribe original_subscribe p callback event_types).trace,
       ev.isOffload = false) ∧
    ((AsyncDataStoreAdapter.subscribe original_subscribe p callback event_types).token =
       original_subscribe (wrapped_callback p callback) event_types) ∧
    (∀ event, wrapped_callback p callback event = p.call callback event) ∧
    ((AsyncDataStoreAdapter.unsubscribe original_unsubscribe token).outcome =
       original_unsubscribe token) ∧
    (∀ ev ∈ (AsyncDataStoreAdapter.unsubscribe original_unsubscribe token).trace,
       ev.isOffload = false) := by
  refine ⟨rfl, ?_, rfl, fun _ => rfl, rfl, ?_⟩
  · intro ev hev
    simp [AsyncDataStoreAdapter.subscribe] at hev
    subst hev
    rfl
  · intro ev hev
    simp [AsyncDataStoreAdapter.unsubscribe] at hev
    subst hev
    rfl

/-- C7 witness: at a concrete registration the trace event is not an
offload, the token comes back unchanged (42), and the wrapper relays
event 3 through the portal's call primitive. -/
theorem subscribe_sync_wraps_callback_witness :
    Ev.isOffload Ev.syncSubscribe = false ∧
    (AsyncDataStoreAdapter.subscribe subOracle pLive cb0 none).token = 42 ∧
    wrapped_callback pLive cb0 3 = Portal.call pLive cb0 3 ∧
    Ev.isOffload (Ev.syncUnsubscribe 9) = false := by
  have h := subscribe_sync_wraps_callback subOracle unsubOracle pLive cb0 none 9
  exact ⟨h.2.1 Ev.syncSubscribe (by decide), h.2.2.1.trans rfl, h.2.2.2.1 3,
    h.2.2.2.2.2 (Ev.syncUnsubscribe 9) (by decide)⟩

/-- C9: in `acquire_schedules` the constructor call
`original.acquire_schedules(scheduler_id, limit)` runs synchronously
first (it is not an offload event); the only offloaded calls are
`cm.__enter__` and `cm.__exit__`; and when the constructor raises, the
error propagates before any offloaded call happens. -/
theorem acquire_schedules_construct_not_offloaded (o : CmOracle) (sid lim : Nat)
    (body : List Nat → Except Exc Unit) :
    ((AsyncDataStoreAdapter.acquire_schedules o sid lim body).trace.head? =
       some (Ev.syncAcquireSchedules sid lim)) ∧
    ((Ev.syncAcquireSchedules sid lim).isOffload = false) ∧
    (∀ ev ∈ (AsyncDataStoreAdapter.acquire_schedules o sid lim body).trace,
       ev.isOffload = true → ev = Ev.offloadCmEnter ∨ ∃ info, ev = Ev.offloadCmExit info) ∧
    (∀ e, o.construct sid lim = .error e →
       (AsyncDataStoreAdapter.acquire_schedules o sid lim body).outcome = .error e ∧
       ∀ ev ∈ (AsyncDataStoreAdapter.acquire_schedules o sid lim body).trace,
         ev.isOffload = false) := by
  cases hc : o.construct sid lim with
  | error e =>
      refine ⟨?_, rfl, ?_, ?_⟩
      · simp [AsyncDataStoreAdapter.acquire_schedules, hc]
      · intro ev hev hoff
        simp [AsyncDataStoreAdapter.acquire_schedules, hc] at hev
        subst hev
        simp [Ev.isOffload] at hoff
      · intro e2 h2
        simp at h2
        subst h2
        refine ⟨?_, ?_⟩
        · simp [AsyncDataStoreAdapter.acquire_schedules, hc]
        · intro ev hev
          simp [AsyncDataStoreAdapter.acquire_schedules, hc] at hev
          subst hev
          rfl
  | ok u =>
      cases u
      cases he : o.enter with
      | error eEnter =>
          refine ⟨?_, rfl, ?_, ?_⟩
          · simp [AsyncDataStoreAdapter.acquire_schedules, hc, he]
          · intro ev hev hoff
            simp [AsyncDataStoreAdapter.acquire_schedules, hc, he] at hev
            rcases hev with hev | hev
            · subst hev
              simp [Ev.isOffload] at hoff
            · subst hev
              exact Or.inl rfl
          · intro e2 h2
            simp at h2
      | ok schedules =>
          cases hb : body schedules with
          | ok u2 =>
              cases u2
              refine ⟨?_, rfl, ?_, ?_⟩
              · simp [AsyncDataStoreAdapter.acquire_schedules, hc, he, hb]
              · intro ev hev hoff
                simp [AsyncDataStoreAdapter.acquire_schedules, hc, he, hb] at hev
                rcases hev with hev | hev | hev
                · subst hev
                  simp [Ev.isOffload] at hoff
                · subst hev
                  exact Or.inl rfl
                · subst hev
                  exact Or.inr ⟨none, rfl⟩
              · intro e2 h2
                simp at h2
          | error E =>
              refine ⟨?_, rfl, ?_, ?_⟩
              · simp [AsyncDataStoreAdapter.acquire_schedules, hc, he, hb]
              · intro ev hev hoff
                simp [AsyncDataStoreAdapter.acquire_schedules, hc, he, hb] at hev
                rcases hev with hev | hev | hev
                · subst hev
                  simp [Ev.isOffload] at hoff
                · subst hev
                  exact Or.inl rfl
                · subst hev
                  exact Or.inr ⟨some E, rfl⟩
              · intro e2 h2
                simp at h2

/-- C9 witness: a raising constructor propagates `e0` with a trace whose
single event is the synchronous constructor call (not an offload); on a
succeeding run the offloaded `cm.__enter__` is among the allowed
offloads. -/
theorem acquire_schedules_construct_not_offloaded_witness :
    (AsyncDataStoreAdapter.acquire_schedules oCmConstructRaises 5 1 bodyOk).outcome =
      .error e0 ∧
    Ev.isOffload (Ev.syncAcquireSchedules 5 1) = false ∧
    (Ev.offloadCmEnter = Ev.offloadCmEnter ∨
      ∃ info, Ev.offloadCmEnter = Ev.offloadCmExit info) := by
  have h1 := acquire_schedules_construct_not_offloaded oCmConstructRaises 5 1 bodyOk
  have h2 := acquire_schedules_construct_not_offloaded oCmOk 5 1 bodyOk
  exact ⟨(h1.2.2.2 e0 rfl).1,
    (h1.2.2.2 e0 rfl).2 (Ev.syncAcquireSchedules 5 1) (by decide),
    h2.2.2.1 Ev.offloadCmEnter (by decide) rfl⟩

/-- C10: when the offloaded `original.__enter__` raises after the portal
opened during the Closed→Open transition, the portal is left open, no
portal close is issued, and the error propagates — the failed open is
not atomic with respect to portal state. -/
theorem aenter_enter_failure_portal_left_open (o : LifecycleOracle) (e : Exc)
    (hp : o.portalAenter = .ok ()) (he : o.originalEnter = .error e) :
    (AsyncDataStoreAdapter.aenter o).portalOpen = true ∧
    (AsyncDataStoreAdapter.aenter o).outcome = .error e ∧
    ∀ info, Ev.portalAexit info ∉ (AsyncDataStoreAdapter.aenter o).trace := by
  refine ⟨?_, ?_, ?_⟩
  · simp [AsyncDataStoreAdapter.aenter, hp]
  · simp [AsyncDataStoreAdapter.aenter, hp, he]
  · intro info
    simp [AsyncDataStoreAdapter.aenter, hp]

/-- C10 witness: with the portal opening and the enter phase raising
`e0`, the portal stays open and `e0` propagates. -/
theorem aenter_enter_failure_portal_left_open_witness :
    (AsyncDataStoreAdapter.aenter oLifeEnterRaises).portalOpen = true ∧
    (AsyncDataStoreAdapter.aenter oLifeEnterRaises).outcome = .error e0 :=
  ⟨(aenter_enter_failure_portal_left_open oLifeEnterRaises e0 rfl rfl).1,
   (aenter_enter_failure_portal_left_open oLifeEnterRaises e0 rfl rfl).2.1⟩

end Apscheduler
